import Mathlib

/-!
Verification of the seislip InSAR ingest pipeline.

This file gives a shallow embedding of the two source modules

  * parse_files.py  : get_image_para, get_image_data
  * slippy/data/insar.py : InSAR.read_from_gamma, InSAR.__phase2los

and proves / refutes the frozen specification claims about them.

Modelling conventions:
  * IEEE-754 binary32 / binary64 values are modelled by FVal: a finite value
    is an exact rational, plus not-a-number and the two infinities.
    Floating-point arithmetic is idealised as exact rational arithmetic; the
    double constant numpy.pi is kept as its exact rational value np_pi.
  * Python exceptions are the inductive PyError.  A try/except that catches
    and swallows an exception (the sources print a message and fall through)
    is modelled by an ordinary return value; an uncaught exception is a
    propagated PyError.
  * Files are modelled as Option of their content (None = the open fails with
    IOError): text files as a list of lines, binary files as a list of bytes.
  * The state of an InSAR instance is the pair (data, data_para).
-/

deriving instance DecidableEq for Except

/-- A floating-point value: not-a-number, the infinities, or a finite value
represented by an exact rational. -/
inductive FVal where
  | nan
  | pinf
  | ninf
  | num (q : ℚ)
deriving DecidableEq

/-- Python exceptions that the embedded code can raise, plus the two
spec-taxonomy error kinds (parseError, unsupportedSensor) that the error
taxonomy of the specification names but that the source never raises; the
latter two exist only so that claims stated in terms of the spec taxonomy can
be formalised and compared against what the code actually raises. -/
inductive PyError where
  | ioError
  | structError
  | nameError (var : String)
  | valueError (msg : String)
  | zeroDivisionError
  | parseError
  | unsupportedSensor
deriving DecidableEq

/-- The exact rational value of the IEEE-754 double numpy.pi
(3.141592653589793...), i.e. Fraction(math.pi). -/
def np_pi : ℚ := 884279719003555 / 281474976710656

/-- scipy.constants.c, the speed of light in m/s (exactly 299792458.0). -/
def c_light : ℚ := 299792458

/-- The finite-value case of the phase-to-LOS formula of __phase2los:
los = - (phase / 2 / np.pi * wavelength / 2).  Source: insar.py line 223. -/
def losQ (wavelength q : ℚ) : ℚ := -(q / 2 / np_pi * wavelength / 2)

/-- los = - (phase / 2 / np.pi * wavelength / 2) lifted to FVal.  The scale
factor wavelength / (4 pi) is positive for every real wavelength, so an
infinite phase maps to the opposite infinity; the degenerate wavelength signs
are included to keep the definition total and faithful to float semantics. -/
def losVal (wavelength : ℚ) : FVal → FVal
  | FVal.nan => FVal.nan
  | FVal.pinf => if 0 < wavelength then FVal.ninf else if wavelength < 0 then FVal.pinf else FVal.nan
  | FVal.ninf => if 0 < wavelength then FVal.pinf else if wavelength < 0 then FVal.ninf else FVal.nan
  | FVal.num q => FVal.num (losQ wavelength q)

/-- The satellite -> radar carrier frequency lookup of __phase2los
(insar.py lines 211-220).  An unknown satellite raises
ValueError("The radar frequency of this satellite is not yet specified!"). -/
def radar_freq (satellite : String) : Except PyError ℚ :=
  if satellite = "sentinel-1" ∨ satellite = "Sentinel-1" ∨ satellite = "s1" ∨ satellite = "S1" then
    Except.ok (540500045433 / 100)
  else if satellite = "ALOS" ∨ satellite = "alos" then
    Except.ok 1270000000
  else if satellite = "ALOS-2/U" then
    Except.ok 1257500000
  else if satellite = "ALOS-2/\x7bF,W\x7d" then
    Except.ok 1236500000
  else
    Except.error (PyError.valueError "The radar frequency of this satellite is not yet specified!")

/-- InSAR.__phase2los on a scalar phase: look the radar frequency up, set
wavelength = c / radar_freq, and return - (phase / 2 / pi * wavelength / 2). -/
def phase2los (phase : FVal) (satellite : String) : Except PyError FVal :=
  match radar_freq satellite with
  | Except.error e => Except.error e
  | Except.ok rf => Except.ok (losVal (c_light / rf) phase)

/-- InSAR.__phase2los on an array phase (the call in read_from_gamma):
the same computation applied elementwise. -/
def phase2losArr (satellite : String) (phase : List FVal) : Except PyError (List FVal) :=
  match radar_freq satellite with
  | Except.error e => Except.error e
  | Except.ok rf => Except.ok (phase.map (losVal (c_light / rf)))

/-- azimuth = -180 - np.degrees(azimuth) (insar.py line 166), elementwise. -/
def aziDegVal : FVal → FVal
  | FVal.nan => FVal.nan
  | FVal.pinf => FVal.ninf
  | FVal.ninf => FVal.pinf
  | FVal.num q => FVal.num (-180 - q * (180 / np_pi))

/-- incidence = 90 - np.degrees(incidence) (insar.py line 167), elementwise. -/
def incDegVal : FVal → FVal
  | FVal.nan => FVal.nan
  | FVal.pinf => FVal.ninf
  | FVal.ninf => FVal.pinf
  | FVal.num q => FVal.num (90 - q * (180 / np_pi))

/-! ## Python string primitives

The parameter-file parsers work on text lines.  We model a line by its list
of characters and implement the Python string operations the sources use
(str.strip, str.split, str.startswith, int(), float()) directly on character
lists, so that every definition reduces in the kernel. -/

/-- str.strip(): drop whitespace from both ends. -/
def pyStrip (s : List Char) : List Char :=
  ((s.dropWhile Char.isWhitespace).reverse.dropWhile Char.isWhitespace).reverse

/-- str.split(sep) for a one-character separator: split at every occurrence,
keeping empty pieces (Python semantics for an explicit separator). -/
def splitOnChar (c : Char) : List Char → List (List Char)
  | [] => [[]]
  | ch :: t =>
    if ch = c then [] :: splitOnChar c t
    else
      match splitOnChar c t with
      | [] => [[ch]]
      | h :: r => (ch :: h) :: r

/-- str.startswith(pat). -/
def startsWithChars : List Char → List Char → Bool
  | [], _ => true
  | _ :: _, [] => false
  | p :: ps, c :: cs => p = c && startsWithChars ps cs

/-- Digit-string accumulator for int()/float(). -/
def pyNatAux : ℕ → List Char → Option ℕ
  | acc, [] => some acc
  | acc, ch :: t => if ch.isDigit then pyNatAux (acc * 10 + (ch.toNat - 48)) t else none

/-- A non-empty all-digit string to its value. -/
def pyNatOf (s : List Char) : Option ℕ :=
  match s with
  | [] => none
  | _ :: _ => pyNatAux 0 s

/-- Python int(s): optional surrounding whitespace, optional sign, digits.
none models the ValueError that int() raises on a malformed literal. -/
def pyInt (s : List Char) : Option ℤ :=
  match pyStrip s with
  | '-' :: rest => (pyNatOf rest).map (fun n => -(n : ℤ))
  | '+' :: rest => (pyNatOf rest).map (fun n => (n : ℤ))
  | t => (pyNatOf t).map (fun n => (n : ℤ))

/-- Value of an unsigned decimal literal, digits and at most one point
(the forms the parameter files contain; exponent forms are not modelled). -/
def pyDecOf (s : List Char) : Option ℚ :=
  match splitOnChar '.' s with
  | [ip] => (pyNatOf ip).map (fun n => (n : ℚ))
  | [ip, fp] =>
    match ip, fp with
    | [], [] => none
    | [], _ :: _ => (pyNatOf fp).map (fun f => (f : ℚ) / 10 ^ fp.length)
    | _ :: _, [] => (pyNatOf ip).map (fun n => (n : ℚ))
    | _ :: _, _ :: _ =>
      match pyNatOf ip, pyNatOf fp with
      | some n, some f => some ((n : ℚ) + (f : ℚ) / 10 ^ fp.length)
      | _, _ => none
  | _ => none

/-- Python float(s) for decimal literals: optional surrounding whitespace,
optional sign, digits with at most one point. -/
def pyFloat (s : List Char) : Option ℚ :=
  match pyStrip s with
  | '-' :: rest => (pyDecOf rest).map (fun q => -q)
  | '+' :: rest => pyDecOf rest
  | t => pyDecOf t

/-- line.strip().split(':')[1] — the text after the first colon. -/
def afterColon (line : List Char) : List Char :=
  (splitOnChar ':' (pyStrip line)).getD 1 []

/-- s.split()[0] — the first whitespace-delimited token.  Python split()
with no argument splits on whitespace runs and drops empty pieces. -/
def firstTok (s : List Char) : List Char :=
  ((splitOnChar ' ' (pyStrip s)).filter (fun t => t ≠ [])).headD []

/-! ## Parameter-file parsing -/

/-- The local variables the parameter-scan loops may leave bound or unbound.
In get_image_para (parse_files.py) they are named width/nlines; in
read_from_gamma (insar.py) the same two are named range_samples and
azimuth_lines, and ellps_name is additionally read.  A none field models an
unbound Python local. -/
structure ParLocals where
  width : Option ℤ
  nlines : Option ℤ
  corner_lat : Option ℚ
  corner_lon : Option ℚ
  post_lat : Option ℚ
  post_lon : Option ℚ
  ellps_name : Option String
deriving DecidableEq

/-- The line dispatch of get_image_para (parse_files.py lines 37-56):
prefix match on the key, int()/float() extraction of the value.  An
extraction failure is the ValueError that int()/float() raise. -/
def parseLinePar (loc : ParLocals) (line : List Char) : Except PyError ParLocals :=
  if startsWithChars "width:".data line then
    match pyInt (afterColon line) with
    | some v => Except.ok ⟨some v, loc.nlines, loc.corner_lat, loc.corner_lon, loc.post_lat, loc.post_lon, loc.ellps_name⟩
    | none => Except.error (PyError.valueError "invalid literal for int")
  else if startsWithChars "nlines:".data line then
    match pyInt (afterColon line) with
    | some v => Except.ok ⟨loc.width, some v, loc.corner_lat, loc.corner_lon, loc.post_lat, loc.post_lon, loc.ellps_name⟩
    | none => Except.error (PyError.valueError "invalid literal for int")
  else if startsWithChars "corner_lat:".data line then
    match pyFloat (firstTok (afterColon line)) with
    | some v => Except.ok ⟨loc.width, loc.nlines, some v, loc.corner_lon, loc.post_lat, loc.post_lon, loc.ellps_name⟩
    | none => Except.error (PyError.valueError "could not convert string to float")
  else if startsWithChars "corner_lon:".data line then
    match pyFloat (firstTok (afterColon line)) with
    | some v => Except.ok ⟨loc.width, loc.nlines, loc.corner_lat, some v, loc.post_lat, loc.post_lon, loc.ellps_name⟩
    | none => Except.error (PyError.valueError "could not convert string to float")
  else if startsWithChars "post_lat:".data line then
    match pyFloat (firstTok (afterColon line)) with
    | some v => Except.ok ⟨loc.width, loc.nlines, loc.corner_lat, loc.corner_lon, some v, loc.post_lon, loc.ellps_name⟩
    | none => Except.error (PyError.valueError "could not convert string to float")
  else if startsWithChars "post_lon:".data line then
    match pyFloat (firstTok (afterColon line)) with
    | some v => Except.ok ⟨loc.width, loc.nlines, loc.corner_lat, loc.corner_lon, loc.post_lat, some v, loc.ellps_name⟩
    | none => Except.error (PyError.valueError "could not convert string to float")
  else
    Except.ok loc

/-- The full scan of get_image_para over the lines of the file. -/
def parseLoopPar (lines : List (List Char)) : Except PyError ParLocals :=
  lines.foldlM parseLinePar ⟨none, none, none, none, none, none, none⟩

/-- The 8-element parameter list
[width, nlines, corner_lat, corner_lon, post_lat, post_lon, post_arc, post_utm]
returned by get_image_para and consumed positionally by get_image_data. -/
structure ImgParams where
  width : ℤ
  nlines : ℤ
  corner_lat : ℚ
  corner_lon : ℚ
  post_lat : ℚ
  post_lon : ℚ
  post_arc : ℚ
  post_utm : ℚ
deriving DecidableEq

/-- get_image_para (parse_files.py lines 16-69).  A file that cannot be
opened raises IOError, which the function catches, prints about and swallows,
falling off the end: modelled as ok none.  After the scan,
post_arc = post_lon * 3600 is computed and the 8-element list is built; the
first use of a variable whose key never occurred raises NameError (post_lon
at the post_arc line, then the list entries left to right). -/
def get_image_para (par_file : Option (List String)) : Except PyError (Option ImgParams) :=
  match par_file with
  | none => Except.ok none
  | some lines =>
    match parseLoopPar (lines.map (fun s => s.data)) with
    | Except.error e => Except.error e
    | Except.ok loc =>
      match loc.post_lon with
      | none => Except.error (PyError.nameError "post_lon")
      | some plon =>
        let post_arc := plon * 3600
        let post_utm := post_arc * 40075017 / 360 / 3600
        match loc.width with
        | none => Except.error (PyError.nameError "width")
        | some wv =>
        match loc.nlines with
        | none => Except.error (PyError.nameError "nlines")
        | some nl =>
        match loc.corner_lat with
        | none => Except.error (PyError.nameError "corner_lat")
        | some clat =>
        match loc.corner_lon with
        | none => Except.error (PyError.nameError "corner_lon")
        | some clon =>
        match loc.post_lat with
        | none => Except.error (PyError.nameError "post_lat")
        | some plat =>
          Except.ok (some ⟨wv, nl, clat, clon, plat, plon, post_arc, post_utm⟩)

/-! ## Binary raster decoding -/

/-- Decode one big-endian IEEE-754 binary32 value from its four bytes. -/
def decodeBE32 (b0 b1 b2 b3 : ℕ) : FVal :=
  let word := ((b0 * 256 + b1) * 256 + b2) * 256 + b3
  let sign := word / 2 ^ 31
  let expo := (word / 2 ^ 23) % 256
  let frac := word % 2 ^ 23
  if expo = 255 then
    if frac = 0 then (if sign = 1 then FVal.ninf else FVal.pinf) else FVal.nan
  else
    let mag : ℚ :=
      (if expo = 0 then ((frac * 2 : ℕ) : ℚ) else ((2 ^ 23 + frac : ℕ) : ℚ) * 2 ^ expo) / 2 ^ 150
    FVal.num (if sign = 1 then -mag else mag)

/-- file.read(4) followed by struct.unpack('>f', chunk): with at least four
bytes left it consumes them and decodes; with fewer, read returns the short
remainder and unpack raises struct.error. -/
def unpack1 : List ℕ → Except PyError (FVal × List ℕ)
  | b0 :: b1 :: b2 :: b3 :: rest => Except.ok (decodeBE32 b0 b1 b2 b3, rest)
  | _ => Except.error PyError.structError

/-- The double read loop of get_image_data (parse_files.py lines 102-106),
flattened over the n = azimuth_lines * range_samples pixels; the values are
produced in file order (azimuth line outer, range sample inner). -/
def decodeLoop : ℕ → List ℕ → Except PyError (List FVal)
  | 0, _ => Except.ok []
  | n + 1, bs =>
    match unpack1 bs with
    | Except.error e => Except.error e
    | Except.ok (v, rest) =>
      match decodeLoop n rest with
      | Except.error e => Except.error e
      | Except.ok l => Except.ok (v :: l)

/-- The np.zeros([range_samples, azimuth_lines]) array after the fill loop
image_arry[j][i] = (i-th line, j-th sample): row j holds, for each azimuth
line i, the value at flat file position i * w + j; positions the loop never
wrote keep the zeros default. -/
def toGrid (w h : ℕ) (l : List FVal) : List (List FVal) :=
  (List.range w).map (fun j => (List.range h).map (fun i => (l[i * w + j]?).getD (FVal.num 0)))

/-- np.arange(0, stop, step) for integer arguments: the multiples of step
below stop; its length is ceil(stop / step).  Meaningful for step >= 1
(numpy raises on step 0; every claim restricts the factor to >= 1). -/
def arange (stop step : ℕ) : List ℕ :=
  (List.range ((stop + step - 1) / step)).map (fun k => k * step)

/-- get_image_data (parse_files.py lines 75-156).
  * image_file none: the open raises IOError, caught and swallowed with a
    printed message; the function falls off the end, modelled as ok none.
  * A file with fewer than 4 * width * nlines bytes: struct.unpack raises
    struct.error, which except IOError does not catch, so it propagates.
  * resample_factor 1: return the decoded grid and the parameter list as is.
  * otherwise: report floor-divided dimensions and factor-scaled spacings,
    and return the bicubic surface (scipy.interpolate.interp2d, external:
    abstracted by splineVal) sampled at np.arange(0, range_samples, factor) x
    np.arange(0, azimuth_lines, factor); per scipy's contract the result has
    one row per entry of new_rows and one column per entry of new_cols. -/
def get_image_data (splineVal : ℕ → ℕ → ℚ) (image_file : Option (List ℕ))
    (parameters : ImgParams) (resample_factor : ℕ) :
    Except PyError (Option (List (List FVal) × ImgParams)) :=
  match image_file with
  | none => Except.ok none
  | some bs =>
    let w := parameters.width.toNat
    let h := parameters.nlines.toNat
    match decodeLoop (h * w) bs with
    | Except.error e => Except.error e
    | Except.ok l =>
      if resample_factor = 1 then
        Except.ok (some (toGrid w h l, parameters))
      else
        let new_range_samples := Int.fdiv parameters.width (resample_factor : ℤ)
        let new_azimuth_lines := Int.fdiv parameters.nlines (resample_factor : ℤ)
        let new_rows := arange w resample_factor
        let new_cols := arange h resample_factor
        let new_image := new_rows.map (fun r => new_cols.map (fun c => FVal.num (splineVal r c)))
        Except.ok (some (new_image,
          ⟨new_range_samples, new_azimuth_lines,
           parameters.corner_lat, parameters.corner_lon,
           parameters.post_lat * resample_factor, parameters.post_lon * resample_factor,
           parameters.post_arc * resample_factor, parameters.post_utm * resample_factor⟩))

/-! ## read_from_gamma: the InSAR ingest method

The arrays of insar.py are modelled as follows.  The fill loop writes
phase[j][i] = (value at flat file position i * range_samples + j), so the
array phase of shape (range_samples, azimuth_lines) carries exactly the
file-order value list, and phase.transpose().reshape(-1, 1) — a row-major
flatten of the transposed (azimuth_lines, range_samples) array — visits the
values in exactly file order (azimuth line outer, range sample inner).  The
flattened channels are therefore represented directly by the file-order list;
gridGet below is the phase[j][i] accessor on that representation, and the
lemma gridGet_flatten in the C9 section records the index identity. -/

/-- l[start::step] for a Python slice: skip counter first, then keep one
element and reset the counter to step - 1. -/
def everyKAux (step : ℕ) : List α → ℕ → List α
  | [], _ => []
  | x :: xs, 0 => x :: everyKAux step xs (step - 1)
  | _ :: xs, k + 1 => everyKAux step xs k

/-- l[::step], the decimation slice applied after reshape(-1, 1).
Meaningful for step >= 1 (Python raises ValueError on slice step 0; the
method raises ZeroDivisionError before any slicing when downsample = 0). -/
def everyK (step : ℕ) (l : List α) : List α := everyKAux step l 0

/-- azimuth = np.where(phase == 0, np.nan, azimuth) (and the same for
incidence): mask a co-registered channel wherever the phase is exactly 0. -/
def maskWith (phaseL other : List FVal) : List FVal :=
  List.zipWith (fun p v => if p = FVal.num 0 then FVal.nan else v) phaseL other

/-- phase = np.where(phase == 0, np.nan, phase). -/
def maskPhase (phaseL : List FVal) : List FVal :=
  phaseL.map (fun p => if p = FVal.num 0 then FVal.nan else p)

/-- The packaged "phase" channel: mask, then transpose-flatten (the identity
on the file-order representation), then decimate (insar.py lines 158, 160). -/
def phaseChan (downsample : ℕ) (phaseL : List FVal) : List FVal :=
  everyK downsample (maskPhase phaseL)

/-- The packaged "azi" channel: mask with the phase, flatten, decimate, then
convert to degrees (insar.py lines 156, 163, 166). -/
def aziChan (downsample : ℕ) (phaseL aziL : List FVal) : List FVal :=
  (everyK downsample (maskWith phaseL aziL)).map aziDegVal

/-- The packaged "inc" channel (insar.py lines 157, 164, 167). -/
def incChan (downsample : ℕ) (phaseL incL : List FVal) : List FVal :=
  (everyK downsample (maskWith phaseL incL)).map incDegVal

/-- np.linspace(start, stop, num): num evenly spaced samples
start + i * (stop - start)/(num - 1); num = 1 gives [start]. -/
def linspace (start stop : ℚ) (num : ℕ) : List ℚ :=
  if num = 1 then [start]
  else (List.range num).map (fun i : ℕ => start + (i : ℚ) * ((stop - start) / ((num : ℚ) - 1)))

/-- lats = np.linspace(corner_lat, corner_lat + (azimuth_lines-1)*post_lat,
azimuth_lines) (insar.py line 169). -/
def latsOf (corner_lat post_lat : ℚ) (azimuth_lines : ℕ) : List ℚ :=
  linspace corner_lat (corner_lat + ((azimuth_lines : ℚ) - 1) * post_lat) azimuth_lines

/-- lons = np.linspace(corner_lon, corner_lon + (range_samples-1)*post_lon,
range_samples) (insar.py line 170). -/
def lonsOf (corner_lon post_lon : ℚ) (range_samples : ℕ) : List ℚ :=
  linspace corner_lon (corner_lon + ((range_samples : ℚ) - 1) * post_lon) range_samples

/-- The first result of np.meshgrid(lons, lats): one row per latitude, each
row a copy of lons. -/
def meshgridLon (lons lats : List ℚ) : List (List ℚ) :=
  lats.map (fun _ => lons)

/-- The second result of np.meshgrid(lons, lats): one row per latitude, each
row repeating that latitude across the lons positions. -/
def meshgridLat (lons lats : List ℚ) : List (List ℚ) :=
  lats.map (fun la => lons.map (fun _ => la))

/-- reshape(-1, 1) of a 2-D array: the row-major flatten. -/
def flat2d (g : List (List ℚ)) : List ℚ := g.flatten

/-- The phase[j][i] accessor on the file-order value list (the fill loop
wrote phase[j][i] from flat file position i * w + j); unwritten positions
keep the np.zeros default. -/
def gridGet (l : List FVal) (w j i : ℕ) : FVal :=
  (l[i * w + j]?).getD (FVal.num 0)

/-- The lock-step read of the three binary files (insar.py lines 138-150):
per pixel, four bytes from the phase file, four from the azimuth file, four
from the incidence file; a short read in any file raises struct.error at
that pixel. -/
def readLoop3 : ℕ → List ℕ → List ℕ → List ℕ →
    Except PyError (List FVal × List FVal × List FVal)
  | 0, _, _, _ => Except.ok ([], [], [])
  | n + 1, b1, b2, b3 =>
    match unpack1 b1 with
    | Except.error e => Except.error e
    | Except.ok (p, r1) =>
      match unpack1 b2 with
      | Except.error e => Except.error e
      | Except.ok (a, r2) =>
        match unpack1 b3 with
        | Except.error e => Except.error e
        | Except.ok (ic, r3) =>
          match readLoop3 n r1 r2 r3 with
          | Except.error e => Except.error e
          | Except.ok (lp, la, li) => Except.ok (p :: lp, a :: la, ic :: li)

/-- The line dispatch of the parameter scan in read_from_gamma (insar.py
lines 96-114): the six keys of get_image_para plus the optional
ellipsoid_name, whose value is line.strip().split(':')[1].strip(). -/
def parseLineInsar (loc : ParLocals) (line : List Char) : Except PyError ParLocals :=
  if startsWithChars "ellipsoid_name:".data line then
    Except.ok ⟨loc.width, loc.nlines, loc.corner_lat, loc.corner_lon, loc.post_lat, loc.post_lon,
      some (String.mk (pyStrip (afterColon line)))⟩
  else
    parseLinePar loc line

/-- The full parameter scan of read_from_gamma. -/
def parseLoopInsar (lines : List (List Char)) : Except PyError ParLocals :=
  lines.foldlM parseLineInsar ⟨none, none, none, none, none, none, none⟩

/-- Stage 1 of read_from_gamma (insar.py lines 92-124): parse the parameter
file inside try/except IOError.  An unopenable file leaves every local
unbound (the IOError is caught and only printed).  After the loop, the
post_arc line needs post_lon and the summary print needs range_samples and
azimuth_lines, in that order; an unbound one raises NameError, which the
except IOError clause does not catch. -/
def gammaStage1 (para_file : Option (List String)) : Except PyError ParLocals :=
  match para_file with
  | none => Except.ok ⟨none, none, none, none, none, none, none⟩
  | some lines =>
    match parseLoopInsar (lines.map (fun s => s.data)) with
    | Except.error e => Except.error e
    | Except.ok loc =>
      match loc.post_lon with
      | none => Except.error (PyError.nameError "post_lon")
      | some _ =>
        match loc.width with
        | none => Except.error (PyError.nameError "range_samples")
        | some _ =>
          match loc.nlines with
          | none => Except.error (PyError.nameError "azimuth_lines")
          | some _ => Except.ok loc

/-- The dataset read_from_gamma assigns to self.data: the eight channels
lon (degree), lat (degree), x (km), y (km), phase (radian), los (m),
azi (degree), inc (degree). -/
structure InSARData where
  lon : List ℚ
  lat : List ℚ
  x : List ℚ
  y : List ℚ
  phase : List FVal
  los : List FVal
  azi : List FVal
  inc : List FVal
deriving DecidableEq

/-- The mutable state of an InSAR instance: self.data and self.data_para
(the latter holding satellite and datum_name). -/
structure InSARState where
  data : Option InSARData
  data_para : Option (String × String)
deriving DecidableEq

/-- InSAR.read_from_gamma (insar.py lines 66-196), as a state transformer
returning the final instance state together with the uncaught exception, if
any.  ll2xy is the inherited GeoTrans projection capability; GeoTrans is not
part of the sources, so, modelled from the spec, it is an injected
deterministic total map project(lon, lat) -> (x, y) applied elementwise.
The stages follow the source order: parameter scan (stage 1, IOError caught
and swallowed), the three raster opens (IOError caught and swallowed,
returning with the state unchanged), the np.zeros dimensions (NameError if
the parameter scan never bound them), the lock-step read, the downsample
report int(range_samples / downsample) (ZeroDivisionError when downsample
is 0), co-masking, flatten and decimation, __phase2los (its ValueError
propagates), the degree conversions, the lat/lon mesh (NameError for a
missing corner or spacing, in evaluation order), the projection, and only
then self.data = ... followed by self.data_para = ..., whose reference to
ellps_name raises NameError when ellipsoid_name was absent — after
self.data was already replaced. -/
def read_from_gamma (ll2xy : ℚ → ℚ → ℚ × ℚ) (st : InSARState)
    (para_file : Option (List String))
    (phase_file azi_file inc_file : Option (List ℕ))
    (satellite : String) (downsample : ℕ) : InSARState × Option PyError :=
  match gammaStage1 para_file with
  | Except.error e => (st, some e)
  | Except.ok loc =>
    match phase_file, azi_file, inc_file with
    | some b1, some b2, some b3 =>
      (match loc.width with
      | none => (st, some (PyError.nameError "range_samples"))
      | some rs =>
        match loc.nlines with
        | none => (st, some (PyError.nameError "azimuth_lines"))
        | some az =>
          let w := rs.toNat
          let h := az.toNat
          match readLoop3 (h * w) b1 b2 b3 with
          | Except.error e => (st, some e)
          | Except.ok (phaseL, aziL, incL) =>
            if downsample = 0 then (st, some PyError.zeroDivisionError)
            else
              match phase2losArr satellite (phaseChan downsample phaseL) with
              | Except.error e => (st, some e)
              | Except.ok los =>
                match loc.corner_lat with
                | none => (st, some (PyError.nameError "corner_lat"))
                | some clat =>
                match loc.post_lat with
                | none => (st, some (PyError.nameError "post_lat"))
                | some plat =>
                match loc.corner_lon with
                | none => (st, some (PyError.nameError "corner_lon"))
                | some clon =>
                match loc.post_lon with
                | none => (st, some (PyError.nameError "post_lon"))
                | some plon =>
                  let lats := latsOf clat plat h
                  let lons := lonsOf clon plon w
                  let lonsFlat := everyK downsample (flat2d (meshgridLon lons lats))
                  let latsFlat := everyK downsample (flat2d (meshgridLat lons lats))
                  let utm := (lonsFlat.zip latsFlat).map (fun pr => ll2xy pr.1 pr.2)
                  let d : InSARData :=
                    ⟨lonsFlat, latsFlat, utm.map Prod.fst, utm.map Prod.snd,
                     phaseChan downsample phaseL, los,
                     aziChan downsample phaseL aziL, incChan downsample phaseL incL⟩
                  match loc.ellps_name with
                  | none => (⟨some d, st.data_para⟩, some (PyError.nameError "ellps_name"))
                  | some en => (⟨some d, some (satellite, en)⟩, none))
    | _, _, _ => (st, none)

/-- The per-pixel longitude mesh as the claim C9 sentence literally builds
it: height evenly spaced values from corner_lon to
corner_lon + (width-1)*post_lon, broadcast across width rows.  This is the
claim-side construction, kept only to be compared against the code's. -/
def specC9LonMesh (corner_lon post_lon : ℚ) (w h : ℕ) : List ℚ :=
  ((List.range w).map
    (fun _ => linspace corner_lon (corner_lon + ((w : ℚ) - 1) * post_lon) h)).flatten

/-- Claim C6: for every phase value and every sensor in the lookup table,
__phase2los returns los = -(phase / (2 pi) * wavelength / 2) with
wavelength = c / radar_freq, the Sentinel-1 frequency (and its aliases) being
5.40500045433e9 Hz; the map is linear in phase, sends 0 to 0, and propagates
not-a-number to not-a-number. -/
theorem c6_phase2los :
    (radar_freq "Sentinel-1" = Except.ok (540500045433 / 100)
      ∧ radar_freq "sentinel-1" = Except.ok (540500045433 / 100)
      ∧ radar_freq "s1" = Except.ok (540500045433 / 100)
      ∧ radar_freq "S1" = Except.ok (540500045433 / 100))
    ∧ (∀ (s : String) (rf : ℚ), radar_freq s = Except.ok rf → ∀ q : ℚ,
        phase2los (FVal.num q) s
          = Except.ok (FVal.num (-(q / (2 * np_pi) * (c_light / rf) / 2))))
    ∧ (∀ w k q : ℚ, losQ w (k * q) = k * losQ w q)
    ∧ (∀ w : ℚ, losQ w 0 = 0)
    ∧ (∀ (s : String) (rf : ℚ), radar_freq s = Except.ok rf →
        phase2los FVal.nan s = Except.ok FVal.nan) := by
  refine ⟨⟨rfl, rfl, rfl, rfl⟩, ?_, ?_, ?_, ?_⟩
  · intro s rf h q
    simp only [phase2los, h, losVal, losQ, Except.ok.injEq, FVal.num.injEq]
    rw [div_div]
  · intro w k q
    simp only [losQ]
    ring
  · intro w
    simp [losQ]
  · intro s rf h
    simp [phase2los, h, losVal]

/-- Witness for C6: the formula conjunct applied to the concrete sensor
"Sentinel-1" and phase 1. -/
theorem c6_phase2los_witness :
    phase2los (FVal.num 1) "Sentinel-1"
      = Except.ok (FVal.num (-(1 / (2 * np_pi) * (c_light / (540500045433 / 100)) / 2))) :=
  c6_phase2los.2.1 "Sentinel-1" (540500045433 / 100) rfl 1

/-- Counterexample for C7: on the unknown sensor "TerraSAR-X", __phase2los
raises the generic built-in ValueError, which is not the dedicated
UnsupportedSensorError kind that the claim (via the spec's error taxonomy)
asserts. -/
theorem c7_counterexample :
    phase2los (FVal.num 1) "TerraSAR-X"
        = Except.error (PyError.valueError "The radar frequency of this satellite is not yet specified!")
      ∧ PyError.valueError "The radar frequency of this satellite is not yet specified!"
          ≠ PyError.unsupportedSensor :=
  ⟨rfl, by decide⟩

/-- Claim C7 (amended): for every sensor string outside the fixed lookup
table and every phase input, __phase2los fails with the built-in
ValueError("The radar frequency of this satellite is not yet specified!")
and produces no output value. -/
theorem c7_unknown_sensor_amended (s : String)
    (h1 : ¬(s = "sentinel-1" ∨ s = "Sentinel-1" ∨ s = "s1" ∨ s = "S1"))
    (h2 : ¬(s = "ALOS" ∨ s = "alos"))
    (h3 : s ≠ "ALOS-2/U")
    (h4 : s ≠ "ALOS-2/\x7bF,W\x7d") :
    ∀ p : FVal, phase2los p s
      = Except.error (PyError.valueError "The radar frequency of this satellite is not yet specified!") := by
  intro p
  simp only [phase2los, radar_freq, if_neg h1, if_neg h2, if_neg h3, if_neg h4]

/-- Witness for C7 (amended): the concrete unknown sensor "TerraSAR-X". -/
theorem c7_witness :
    phase2los FVal.nan "TerraSAR-X"
      = Except.error (PyError.valueError "The radar frequency of this satellite is not yet specified!") :=
  c7_unknown_sensor_amended "TerraSAR-X" (by decide) (by decide) (by decide) (by decide) FVal.nan

/-- Counterexample for C8: the claim asserts a typed ParseError surfaced to
the caller both when the file cannot be opened and when a required key is
missing.  In fact an unopenable file yields the ordinary return value None
(the IOError is swallowed), and a file missing post_lon yields an uncaught
NameError, neither of which is the spec's ParseError kind. -/
theorem c8_counterexample :
    get_image_para none = Except.ok none
      ∧ get_image_para (some ["nlines: 2"]) = Except.error (PyError.nameError "post_lon")
      ∧ PyError.nameError "post_lon" ≠ PyError.parseError :=
  ⟨rfl, rfl, by decide⟩

/-- Claim C8 (amended): when the parameter file cannot be opened,
get_image_para catches the IOError, prints a diagnostic and returns None (an
ordinary value, no typed error reaches the caller); when the scan of an
opened file completes with any required key absent, the function fails with
an uncaught NameError for the first missing variable in Python's evaluation
order — post_lon at the post_arc line, then the return-list entries width,
nlines, corner_lat, corner_lon, post_lat — raised only after the full scan. -/
theorem c8_parse_failure_amended :
    get_image_para none = Except.ok none
      ∧ (∀ (lines : List String) (loc : ParLocals),
          parseLoopPar (lines.map (fun s => s.data)) = Except.ok loc →
          loc.post_lon = none →
          get_image_para (some lines) = Except.error (PyError.nameError "post_lon"))
      ∧ (∀ (lines : List String) (loc : ParLocals) (plon : ℚ),
          parseLoopPar (lines.map (fun s => s.data)) = Except.ok loc →
          loc.post_lon = some plon →
          loc.width = none →
          get_image_para (some lines) = Except.error (PyError.nameError "width"))
      ∧ (∀ (lines : List String) (loc : ParLocals) (plon : ℚ) (wv : ℤ),
          parseLoopPar (lines.map (fun s => s.data)) = Except.ok loc →
          loc.post_lon = some plon →
          loc.width = some wv →
          loc.nlines = none →
          get_image_para (some lines) = Except.error (PyError.nameError "nlines"))
      ∧ (∀ (lines : List String) (loc : ParLocals) (plon : ℚ) (wv nl : ℤ),
          parseLoopPar (lines.map (fun s => s.data)) = Except.ok loc →
          loc.post_lon = some plon →
          loc.width = some wv →
          loc.nlines = some nl →
          loc.corner_lat = none →
          get_image_para (some lines) = Except.error (PyError.nameError "corner_lat"))
      ∧ (∀ (lines : List String) (loc : ParLocals) (plon : ℚ) (wv nl : ℤ) (clat : ℚ),
          parseLoopPar (lines.map (fun s => s.data)) = Except.ok loc →
          loc.post_lon = some plon →
          loc.width = some wv →
          loc.nlines = some nl →
          loc.corner_lat = some clat →
          loc.corner_lon = none →
          get_image_para (some lines) = Except.error (PyError.nameError "corner_lon"))
      ∧ (∀ (lines : List String) (loc : ParLocals) (plon : ℚ) (wv nl : ℤ) (clat clon : ℚ),
          parseLoopPar (lines.map (fun s => s.data)) = Except.ok loc →
          loc.post_lon = some plon →
          loc.width = some wv →
          loc.nlines = some nl →
          loc.corner_lat = some clat →
          loc.corner_lon = some clon →
          loc.post_lat = none →
          get_image_para (some lines) = Except.error (PyError.nameError "post_lat")) := by
  refine ⟨rfl, ?_, ?_, ?_, ?_, ?_, ?_⟩
  · intro lines loc hparse hplon
    simp [get_image_para, hparse, hplon]
  · intro lines loc plon hparse hplon hwidth
    simp [get_image_para, hparse, hplon, hwidth]
  · intro lines loc plon wv hparse hplon hwidth hnlines
    simp [get_image_para, hparse, hplon, hwidth, hnlines]
  · intro lines loc plon wv nl hparse hplon hwidth hnlines hclat
    simp [get_image_para, hparse, hplon, hwidth, hnlines, hclat]
  · intro lines loc plon wv nl clat hparse hplon hwidth hnlines hclat hclon
    simp [get_image_para, hparse, hplon, hwidth, hnlines, hclat, hclon]
  · intro lines loc plon wv nl clat clon hparse hplon hwidth hnlines hclat hclon hplat
    simp [get_image_para, hparse, hplon, hwidth, hnlines, hclat, hclon, hplat]

/-- Witness for C8 (amended): a file containing only nlines fails after the
scan with NameError for post_lon, and a file containing only post_lon fails
with NameError for width, the first unbound return-list entry. -/
theorem c8_witness :
    get_image_para (some ["nlines: 2"]) = Except.error (PyError.nameError "post_lon")
      ∧ get_image_para (some ["post_lon: 0.001"]) = Except.error (PyError.nameError "width") :=
  ⟨c8_parse_failure_amended.2.1 ["nlines: 2"]
      ⟨none, some 2, none, none, none, none, none⟩ rfl rfl,
   c8_parse_failure_amended.2.2.1 ["post_lon: 0.001"]
      ⟨none, none, none, none, none, some (1 / 1000), none⟩ (1 / 1000)
      (by decide!) rfl rfl⟩

/-- Any byte list shorter than 4 bytes per pixel makes the decode loop fail
with struct.error. -/
theorem decodeLoop_short : ∀ (n : ℕ) (bs : List ℕ), bs.length < 4 * n →
    decodeLoop n bs = Except.error PyError.structError := by
  intro n
  induction n with
  | zero => intro bs h; omega
  | succ m ih =>
    intro bs h
    match bs with
    | [] => rfl
    | [_] => rfl
    | [_, _] => rfl
    | [_, _, _] => rfl
    | _ :: _ :: _ :: _ :: rest =>
      have hr : rest.length < 4 * m := by simp at h; omega
      simp [decodeLoop, unpack1, ih rest hr]

/-- Claim C1 (code_bug evidence): with width 5, nlines 4 and factor 2, the
resample branch reports floor dimensions 2 x 2 and spacings scaled by the
factor, but the grid it actually returns has ceil dimensions 3 x 2: the grid
produced and the dimensions reported in the returned parameter list disagree. -/
theorem c1_resample_shape_mismatch :
    get_image_data (fun _ _ => (0 : ℚ)) (some (List.replicate 80 0))
        ⟨5, 4, 10, 20, -(1 / 1000), 1 / 1000, 18 / 5, 111⟩ 2
      = Except.ok (some
          ([[FVal.num 0, FVal.num 0], [FVal.num 0, FVal.num 0], [FVal.num 0, FVal.num 0]],
           ⟨2, 2, 10, 20, -(2 / 1000), 2 / 1000, 36 / 5, 222⟩))
      ∧ ([[FVal.num 0, FVal.num 0], [FVal.num 0, FVal.num 0], [FVal.num 0, FVal.num 0]]
          : List (List FVal)).length ≠ ((2 : ℤ)).toNat :=
  ⟨by decide!, by decide⟩

/-- Counterexample for C4: the claim asserts the decode fails with IOError
both when the file cannot be opened and when it is shorter than
width*height*4 bytes.  In fact an unopenable file produces the ordinary
return value None (the IOError is swallowed after a printed message), and a
3-byte file for a 1x1 raster fails with struct.error, not IOError. -/
theorem c4_counterexample :
    get_image_data (fun _ _ => (0 : ℚ)) (some [0, 0, 0]) ⟨1, 1, 0, 0, 0, 0, 0, 0⟩ 1
        = Except.error PyError.structError
      ∧ get_image_data (fun _ _ => (0 : ℚ)) none ⟨1, 1, 0, 0, 0, 0, 0, 0⟩ 1 = Except.ok none
      ∧ PyError.structError ≠ PyError.ioError :=
  ⟨rfl, rfl, by decide⟩

/-- Claim C4 (amended): when the image file cannot be opened, get_image_data
catches the IOError, prints a message and returns None, surfacing no error;
when the file holds fewer than width*nlines*4 bytes, the decode fails with
struct.error, a typed failure that propagates uncaught to the caller but is
not IOError. -/
theorem c4_truncated_decode_amended :
    (∀ (sv : ℕ → ℕ → ℚ) (p : ImgParams) (f : ℕ) (bs : List ℕ),
        bs.length < 4 * (p.nlines.toNat * p.width.toNat) →
        get_image_data sv (some bs) p f = Except.error PyError.structError)
      ∧ (∀ (sv : ℕ → ℕ → ℚ) (p : ImgParams) (f : ℕ),
          get_image_data sv none p f = Except.ok none) := by
  refine ⟨?_, fun _ _ _ => rfl⟩
  intro sv p f bs hbs
  simp [get_image_data, decodeLoop_short _ _ hbs]

/-- Witness for C4 (amended): a 3-byte file for a declared 1x1 raster. -/
theorem c4_witness :
    ([0, 0, 0] : List ℕ).length < 4 * ((1 : ℤ).toNat * (1 : ℤ).toNat)
      ∧ get_image_data (fun _ _ => (0 : ℚ)) (some [0, 0, 0]) ⟨1, 1, 2, 3, 4, 5, 6, 7⟩ 3
          = Except.error PyError.structError :=
  ⟨by decide,
   c4_truncated_decode_amended.1 (fun _ _ => (0 : ℚ)) ⟨1, 1, 2, 3, 4, 5, 6, 7⟩ 3 [0, 0, 0] (by decide)⟩

/-- Claim C10: for every raster file and every resample factor equal to 1 or
greater than 1, the parameter list returned by get_image_data carries the
input corner_lat and corner_lon unchanged. -/
theorem c10_corner_preserved (sv : ℕ → ℕ → ℚ) (file : Option (List ℕ)) (p : ImgParams)
    (f : ℕ) (hf : f = 1 ∨ 1 < f) (g : List (List FVal)) (q : ImgParams)
    (h : get_image_data sv file p f = Except.ok (some (g, q))) :
    q.corner_lat = p.corner_lat ∧ q.corner_lon = p.corner_lon := by
  cases file with
  | none => simp [get_image_data] at h
  | some bs =>
    simp only [get_image_data] at h
    split at h
    · simp at h
    · split at h
      · simp only [Except.ok.injEq, Option.some.injEq, Prod.mk.injEq] at h
        rw [← h.2]
        exact ⟨rfl, rfl⟩
      · simp only [Except.ok.injEq, Option.some.injEq, Prod.mk.injEq] at h
        rw [← h.2]
        exact ⟨rfl, rfl⟩

/-- Witness for C10: a 1x1 raster with factor 1; the returned parameter list
keeps corner_lat = 5 and corner_lon = 6. -/
theorem c10_witness :
    get_image_data (fun _ _ => (0 : ℚ)) (some [0, 0, 0, 0]) ⟨1, 1, 5, 6, 7, 8, 9, 10⟩ 1
        = Except.ok (some ([[FVal.num 0]], ⟨1, 1, 5, 6, 7, 8, 9, 10⟩))
      ∧ (ImgParams.corner_lat ⟨1, 1, 5, 6, 7, 8, 9, 10⟩ = 5 ∧
         ImgParams.corner_lon ⟨1, 1, 5, 6, 7, 8, 9, 10⟩ = 6) := by
  refine ⟨by decide!, ?_⟩
  have h := c10_corner_preserved (fun _ _ => (0 : ℚ)) (some [0, 0, 0, 0])
    ⟨1, 1, 5, 6, 7, 8, 9, 10⟩ 1 (Or.inl rfl) [[FVal.num 0]] ⟨1, 1, 5, 6, 7, 8, 9, 10⟩ (by decide!)
  exact ⟨h.1, h.2⟩

/-- Element m of the slice l[k::step] is element k + m * step of l. -/
theorem everyKAux_getElem? (step : ℕ) (hs : 0 < step) :
    ∀ (l : List α) (k m : ℕ), (everyKAux step l k)[m]? = l[k + m * step]? := by
  intro l
  induction l with
  | nil => intro k m; simp [everyKAux]
  | cons x xs ih =>
    intro k m
    match k with
    | 0 =>
      match m with
      | 0 => simp [everyKAux]
      | m' + 1 =>
        show (x :: everyKAux step xs (step - 1))[m' + 1]? = (x :: xs)[0 + (m' + 1) * step]?
        rw [List.getElem?_cons_succ, ih (step - 1) m']
        have hidx : 0 + (m' + 1) * step = step - 1 + m' * step + 1 := by
          rw [Nat.zero_add, Nat.succ_mul]
          omega
        rw [hidx, List.getElem?_cons_succ]
    | k' + 1 =>
      show (everyKAux step xs k')[m]? = (x :: xs)[k' + 1 + m * step]?
      rw [ih k' m]
      have hidx : k' + 1 + m * step = k' + m * step + 1 := by omega
      rw [hidx, List.getElem?_cons_succ]

/-- Element m of the decimated list l[::step] is element m * step of l. -/
theorem everyK_getElem? (step : ℕ) (hs : 0 < step) (l : List α) (m : ℕ) :
    (everyK step l)[m]? = l[m * step]? := by
  rw [everyK, everyKAux_getElem? step hs l 0 m, Nat.zero_add]

/-- Claim C5: wherever the phase is exactly zero, the packaged phase, azi
and inc channels hold not-a-number at the corresponding output index
simultaneously, and a pixel with nonzero phase is left unmasked in all three
channels (its phase is kept and its azimuth and incidence are just the
degree conversions of the original values). -/
theorem c5_comask (phaseL aziL incL : List FVal) (d k : ℕ) (hd : 0 < d)
    (p a ic : FVal) (hp : phaseL[k * d]? = some p) (ha : aziL[k * d]? = some a)
    (hi : incL[k * d]? = some ic) :
    (p = FVal.num 0 →
        (phaseChan d phaseL)[k]? = some FVal.nan
      ∧ (aziChan d phaseL aziL)[k]? = some FVal.nan
      ∧ (incChan d phaseL incL)[k]? = some FVal.nan)
    ∧ (p ≠ FVal.num 0 →
        (phaseChan d phaseL)[k]? = some p
      ∧ (aziChan d phaseL aziL)[k]? = some (aziDegVal a)
      ∧ (incChan d phaseL incL)[k]? = some (incDegVal ic)) := by
  have hphase : (phaseChan d phaseL)[k]?
      = some (if p = FVal.num 0 then FVal.nan else p) := by
    rw [phaseChan, everyK_getElem? d hd, maskPhase, List.getElem?_map, hp]
    rfl
  have hazi : (aziChan d phaseL aziL)[k]?
      = some (aziDegVal (if p = FVal.num 0 then FVal.nan else a)) := by
    rw [aziChan, List.getElem?_map, everyK_getElem? d hd, maskWith,
      List.getElem?_zipWith, hp, ha]
    rfl
  have hinc : (incChan d phaseL incL)[k]?
      = some (incDegVal (if p = FVal.num 0 then FVal.nan else ic)) := by
    rw [incChan, List.getElem?_map, everyK_getElem? d hd, maskWith,
      List.getElem?_zipWith, hp, hi]
    rfl
  constructor
  · intro h0
    rw [hphase, hazi, hinc, if_pos h0, if_pos h0, if_pos h0]
    exact ⟨rfl, rfl, rfl⟩
  · intro hne
    rw [hphase, hazi, hinc, if_neg hne, if_neg hne, if_neg hne]
    exact ⟨rfl, rfl, rfl⟩

/-- Witness for C5: a two-pixel raster whose first phase is exactly zero;
with stride 1 and output index 0 all three channels are masked. -/
theorem c5_comask_witness :
    (phaseChan 1 [FVal.num 0, FVal.num 1])[0]? = some FVal.nan
      ∧ (aziChan 1 [FVal.num 0, FVal.num 1] [FVal.num 2, FVal.num 3])[0]? = some FVal.nan
      ∧ (incChan 1 [FVal.num 0, FVal.num 1] [FVal.num 4, FVal.num 5])[0]? = some FVal.nan :=
  (c5_comask [FVal.num 0, FVal.num 1] [FVal.num 2, FVal.num 3] [FVal.num 4, FVal.num 5]
    1 0 (by decide) (FVal.num 0) (FVal.num 2) (FVal.num 4) rfl rfl rfl).1 rfl

/-! ## Geocoding lemmas (claim C9) -/

/-- np.linspace always returns num samples. -/
theorem linspace_length (a b : ℚ) (n : ℕ) : (linspace a b n).length = n := by
  unfold linspace
  split
  · simp [*]
  · simp

/-- On the affine endpoints the sources use, sample j of
np.linspace(a, a + (n-1)p, n) is exactly a + j p. -/
theorem linspace_affine_getElem? (a p : ℚ) (n j : ℕ) (hj : j < n) :
    (linspace a (a + ((n : ℚ) - 1) * p) n)[j]? = some (a + j * p) := by
  unfold linspace
  by_cases h1 : n = 1
  · subst h1
    have : j = 0 := by omega
    subst this
    simp
  · rw [if_neg h1, List.getElem?_map, List.getElem?_range hj]
    have hn1 : ((n : ℚ) - 1) ≠ 0 := by
      have h2 : 2 ≤ n := by omega
      have : (2 : ℚ) ≤ (n : ℚ) := by exact_mod_cast h2
      linarith
    simp only [Option.map]
    rw [add_sub_cancel_left, mul_div_cancel_left₀ _ hn1]

/-- Row-major flatten of the meshgrid longitude array: entry n is entry
n mod width of the lons vector. -/
theorem meshgridLon_flat_getElem? (lons : List ℚ) :
    ∀ (lats : List ℚ) (n : ℕ), n < lats.length * lons.length →
      (flat2d (meshgridLon lons lats))[n]? = lons[n % lons.length]? := by
  intro lats
  induction lats with
  | nil => intro n hn; simp at hn
  | cons y ys ih =>
    intro n hn
    rw [List.length_cons, Nat.succ_mul] at hn
    simp only [meshgridLon, List.map_cons, flat2d, List.flatten_cons]
    by_cases h : n < lons.length
    · rw [List.getElem?_append_left h, Nat.mod_eq_of_lt h]
    · push_neg at h
      rw [List.getElem?_append_right h]
      have hlen : n - lons.length < ys.length * lons.length := by omega
      have hmod : (n - lons.length) % lons.length = n % lons.length := by
        conv_rhs => rw [← Nat.sub_add_cancel h]
        rw [Nat.add_mod_right]
      rw [← hmod]
      exact ih (n - lons.length) hlen

/-- Row-major flatten of the meshgrid latitude array: entry n is entry
n div width of the lats vector. -/
theorem meshgridLat_flat_getElem? (lons : List ℚ) :
    ∀ (lats : List ℚ) (n : ℕ), n < lats.length * lons.length →
      (flat2d (meshgridLat lons lats))[n]? = lats[n / lons.length]? := by
  intro lats
  induction lats with
  | nil => intro n hn; simp at hn
  | cons y ys ih =>
    intro n hn
    rw [List.length_cons, Nat.succ_mul] at hn
    have hL : 0 < lons.length := by
      rcases Nat.eq_zero_or_pos lons.length with h0 | h0
      · rw [h0, Nat.mul_zero] at hn
        omega
      · exact h0
    simp only [meshgridLat, List.map_cons, flat2d, List.flatten_cons]
    by_cases h : n < lons.length
    · have hleft : n < (lons.map (fun _ => y)).length := by simpa using h
      rw [List.getElem?_append_left hleft, List.getElem?_map,
        List.getElem?_eq_getElem h, Nat.div_eq_of_lt h]
      simp
    · push_neg at h
      have hright : (lons.map (fun _ => y)).length ≤ n := by simpa using h
      rw [List.getElem?_append_right hright]
      have hlen : n - lons.length < ys.length * lons.length := by omega
      have hdiv : n / lons.length = (n - lons.length) / lons.length + 1 := by
        conv_lhs => rw [← Nat.sub_add_cancel h]
        rw [Nat.add_div_right _ hL]
      rw [hdiv, List.length_map, List.getElem?_cons_succ]
      exact ih (n - lons.length) hlen

/-- Flat channel index n is the pixel written as phase[n mod w][n div w]
by the fill loop. -/
theorem gridGet_flatten (l : List FVal) (w n : ℕ) (v : FVal)
    (hv : l[n]? = some v) : gridGet l w (n % w) (n / w) = v := by
  have hidx : n / w * w + n % w = n := by
    rw [Nat.mul_comm]
    exact Nat.div_add_mod n w
  rw [gridGet, hidx, hv]
  rfl

/-- Counterexample for C9: with width 2, height 3, corner_lon 0, post_lon 1
the code broadcasts the 2 longitude samples [0, 1] across 3 rows, whereas
the claim's construction broadcasts 3 samples [0, 1/2, 1] across 2 rows; the
flattened meshes differ. -/
theorem c9_counterexample :
    flat2d (meshgridLon (lonsOf 0 1 2) (latsOf 0 1 3)) ≠ specC9LonMesh 0 1 2 3 := by
  decide!

/-- Claim C9 (amended): the longitude array is width evenly spaced values
from corner_lon to corner_lon + (width-1)*post_lon broadcast across height
rows, latitude symmetrically from corner_lat, post_lat and height; the
flattened meshes are positionally aligned with the flattened raster
channels: flat index n carries lon = corner_lon + (n mod width)*post_lon and
lat = corner_lat + (n div width)*post_lat, and is the raster pixel
phase[n mod width][n div width]. -/
theorem c9_geocode_amended (clat clon plat plon : ℚ) (w h n : ℕ)
    (hw : 0 < w) (hn : n < h * w) :
    (lonsOf clon plon w).length = w
    ∧ (meshgridLon (lonsOf clon plon w) (latsOf clat plat h)).length = h
    ∧ (flat2d (meshgridLon (lonsOf clon plon w) (latsOf clat plat h)))[n]?
        = some (clon + ((n % w : ℕ) : ℚ) * plon)
    ∧ (flat2d (meshgridLat (lonsOf clon plon w) (latsOf clat plat h)))[n]?
        = some (clat + ((n / w : ℕ) : ℚ) * plat)
    ∧ (∀ (l : List FVal) (v : FVal), l[n]? = some v → gridGet l w (n % w) (n / w) = v) := by
  have hLlon : (lonsOf clon plon w).length = w := linspace_length _ _ _
  have hLlat : (latsOf clat plat h).length = h := linspace_length _ _ _
  refine ⟨hLlon, ?_, ?_, ?_, ?_⟩
  · rw [meshgridLon, List.length_map, hLlat]
  · rw [meshgridLon_flat_getElem? _ _ _ (by rw [hLlat, hLlon]; exact hn), hLlon]
    exact linspace_affine_getElem? clon plon w (n % w) (Nat.mod_lt n hw)
  · rw [meshgridLat_flat_getElem? _ _ _ (by rw [hLlat, hLlon]; exact hn), hLlon]
    have hdivlt : n / w < h := by
      rw [Nat.div_lt_iff_lt_mul hw]
      omega
    exact linspace_affine_getElem? clat plat h (n / w) hdivlt
  · intro l v hv
    exact gridGet_flatten l w n v hv

/-- Witness for C9 (amended): the longitude of flat index 5 in a 2 x 3 mesh
with corner_lon 2 and post_lon 4. -/
theorem c9_witness :
    (flat2d (meshgridLon (lonsOf 2 4 2) (latsOf 1 3 3)))[5]?
      = some (2 + (((5 % 2 : ℕ)) : ℚ) * 4) :=
  (c9_geocode_amended 1 2 3 4 2 3 5 (by decide) (by decide)).2.2.1

/-- Claim C2 (code_bug evidence): a complete parameter file that merely
lacks the optional ellipsoid_name key, with valid 1x1 rasters (the bytes
[63, 128, 0, 0] encode 1.0f) and a supported satellite.  Starting from the
fresh state (data = none, data_para = none), the call raises NameError for
ellps_name, yet leaves the instance with self.data replaced by the new
dataset while self.data_para is unchanged: a partial dataset is published by
a failing ingest, so the ingest is not atomic. -/
theorem c2_ingest_not_atomic :
    (read_from_gamma (fun a b => (a, b)) ⟨none, none⟩
        (some ["width: 1", "nlines: 1", "corner_lat: 10.0", "corner_lon: 20.0",
               "post_lat: -0.001", "post_lon: 0.001"])
        (some [63, 128, 0, 0]) (some [63, 128, 0, 0]) (some [63, 128, 0, 0])
        "Sentinel-1" 1).1.data.isSome = true
      ∧ (read_from_gamma (fun a b => (a, b)) ⟨none, none⟩
          (some ["width: 1", "nlines: 1", "corner_lat: 10.0", "corner_lon: 20.0",
                 "post_lat: -0.001", "post_lon: 0.001"])
          (some [63, 128, 0, 0]) (some [63, 128, 0, 0]) (some [63, 128, 0, 0])
          "Sentinel-1" 1).1.data_para = none
      ∧ (read_from_gamma (fun a b => (a, b)) ⟨none, none⟩
          (some ["width: 1", "nlines: 1", "corner_lat: 10.0", "corner_lon: 20.0",
                 "post_lat: -0.001", "post_lon: 0.001"])
          (some [63, 128, 0, 0]) (some [63, 128, 0, 0]) (some [63, 128, 0, 0])
          "Sentinel-1" 1).2 = some (PyError.nameError "ellps_name") :=
  ⟨by decide!, by decide!, by decide!⟩

/-- Claim C3 (code_bug evidence): on the same input — all six required keys
present, ellipsoid_name absent — read_from_gamma does not complete without
failure: the reference to the unbound local ellps_name while building
self.data_para raises NameError. -/
theorem c3_missing_ellipsoid_fails :
    (read_from_gamma (fun a b => (a, b)) ⟨none, none⟩
        (some ["width: 1", "nlines: 1", "corner_lat: 10.0", "corner_lon: 20.0",
               "post_lat: -0.001", "post_lon: 0.001"])
        (some [63, 128, 0, 0]) (some [63, 128, 0, 0]) (some [63, 128, 0, 0])
        "Sentinel-1" 1).2 ≠ none :=
  by decide!
